import Mathlib

/-!
Verification of the text-editor core of the `mcp-text-editor` repository:
the fingerprinting scheme, the selection manager, the propose/decide
two-phase commit coordinator, the diff preview builder and the
extension-keyed syntax validation gate.

The editing core (`TextEditorServer`, `calculate_id`,
`generate_diff_preview` в `src/text_editor/server.py`) is exercised by the
repository's test suite; the definitions below embed that core as pure
Lean functions.  State is passed explicitly: the session state, the file
store (a map from paths to file entries) and the outcome of the one
fallible write are all arguments and results of the operations.
-/

set_option maxRecDepth 4000000

namespace TextEditor

/-! ## SHA-256, the hash behind the fingerprint calculator -/

/-- 2^32, the modulus for 32-bit words. -/
def M32 : Nat := 4294967296

/-- Right rotation of a 32-bit word by `n` bits. -/
def rotr (x n : Nat) : Nat := ((x >>> n) + (x <<< (32 - n))) % M32

/-- Right shift of a 32-bit word. -/
def shr (x n : Nat) : Nat := x >>> n

/-- SHA-256 round constants (decimal values of the standard's table). -/
def K : List Nat :=
  [1116352408, 1899447441, 3049323471, 3921009573, 961987163, 1508970993,
   2453635748, 2870763221, 3624381080, 310598401, 607225278, 1426881987,
   1925078388, 2162078206, 2614888103, 3248222580, 3835390401, 4022224774,
   264347078, 604807628, 770255983, 1249150122, 1555081692, 1996064986,
   2554220882, 2821834349, 2952996808, 3210313671, 3336571891, 3584528711,
   113926993, 338241895, 666307205, 773529912, 1294757372, 1396182291,
   1695183700, 1986661051, 2177026350, 2456956037, 2730485921, 2820302411,
   3259730800, 3345764771, 3516065817, 3600352804, 4094571909, 275423344,
   430227734, 506948616, 659060556, 883997877, 958139571, 1322822218,
   1537002063, 1747873779, 1955562222, 2024104815, 2227730452, 2361852424,
   2428436474, 2756734187, 3204031479, 3329325298]

/-- Initial SHA-256 hash state (decimal values of the standard's table). -/
def H0 : List Nat :=
  [1779033703, 3144134277, 1013904242, 2773480762,
   1359893119, 2600822924, 528734635, 1541459225]

/-- UTF-8 encoding of a single character, as byte values. -/
def utf8Bytes (c : Char) : List Nat :=
  let n := c.toNat
  if n < 0x80 then [n]
  else if n < 0x800 then
    [0xC0 + n / 64, 0x80 + n % 64]
  else if n < 0x10000 then
    [0xE0 + n / 4096, 0x80 + (n / 64) % 64, 0x80 + n % 64]
  else
    [0xF0 + n / 262144, 0x80 + (n / 4096) % 64, 0x80 + (n / 64) % 64, 0x80 + n % 64]

/-- UTF-8 bytes of a string (what Python's `text.encode()` produces). -/
def strBytes (s : String) : List Nat :=
  (s.data.map utf8Bytes).flatten

/-- SHA-256 message padding: append `0x80`, zero bytes, and the 64-bit
big-endian bit length. -/
def pad (msg : List Nat) : List Nat :=
  let L := msg.length
  let zeros := (55 + 64 - (L % 64)) % 64
  let bitLen := L * 8
  msg ++ [0x80] ++ List.replicate zeros 0 ++
    [(bitLen >>> 56) % 256, (bitLen >>> 48) % 256, (bitLen >>> 40) % 256, (bitLen >>> 32) % 256,
     (bitLen >>> 24) % 256, (bitLen >>> 16) % 256, (bitLen >>> 8) % 256, bitLen % 256]

/-- Split a list into chunks of size `k` (fuel-driven structural recursion,
so that it reduces inside the kernel). -/
def chunksAux (k : Nat) : Nat → List Nat → List (List Nat)
  | 0, _ => []
  | _, [] => []
  | fuel + 1, l => l.take k :: chunksAux k fuel (l.drop k)

/-- Split a list into chunks of size `k`. -/
def chunks (k : Nat) (l : List Nat) : List (List Nat) :=
  chunksAux k l.length l

/-- Combine big-endian bytes into a word. -/
def word32 (l : List Nat) : Nat :=
  l.foldl (fun acc b => acc * 256 + b) 0

/-- Extension step of the SHA-256 message schedule. -/
def scheduleAux (acc : List Nat) : Nat → List Nat
  | 0 => acc
  | i + 1 =>
    let t := acc.length
    let w15 := acc.getD (t - 15) 0
    let w2 := acc.getD (t - 2) 0
    let w16 := acc.getD (t - 16) 0
    let w7 := acc.getD (t - 7) 0
    let s0 := Nat.xor (Nat.xor (rotr w15 7) (rotr w15 18)) (shr w15 3)
    let s1 := Nat.xor (Nat.xor (rotr w2 17) (rotr w2 19)) (shr w2 10)
    scheduleAux (acc ++ [(w16 + s0 + w7 + s1) % M32]) i

/-- The 64-entry message schedule for one 512-bit block given as 16 words. -/
def schedule (ws : List Nat) : List Nat :=
  scheduleAux ws 48

/-- Bitwise NOT on a 32-bit word. -/
def not32 (x : Nat) : Nat := M32 - 1 - x

/-- The SHA-256 compression function over one block's 64 scheduled words. -/
def compress (h : List Nat) (ws : List Nat) : List Nat :=
  let final := (ws.zip K).foldl
    (fun st kw =>
      match st with
      | [a, b, c, d, e, f, g, hh] =>
        let w := kw.1
        let k := kw.2
        let S1 := Nat.xor (Nat.xor (rotr e 6) (rotr e 11)) (rotr e 25)
        let ch := Nat.xor (Nat.land e f) (Nat.land (not32 e) g)
        let t1 := (hh + S1 + ch + k + w) % M32
        let S0 := Nat.xor (Nat.xor (rotr a 2) (rotr a 13)) (rotr a 22)
        let maj := Nat.xor (Nat.xor (Nat.land a b) (Nat.land a c)) (Nat.land b c)
        let t2 := (S0 + maj) % M32
        [(t1 + t2) % M32, a, b, c, (d + t1) % M32, e, f, g]
      | other => other)
    h
  (h.zip final).map (fun p => (p.1 + p.2) % M32)

/-- SHA-256 digest of a byte list, as the 8 final 32-bit words. -/
def sha256Words (msg : List Nat) : List Nat :=
  (chunks 64 (pad msg)).foldl (fun h blk => compress h (schedule ((chunks 4 blk).map word32))) H0

/-- A single lowercase hex digit character. -/
def hexDigit (n : Nat) : Char :=
  if n < 10 then Char.ofNat (48 + n) else Char.ofNat (87 + n)

/-- 8-hex-digit rendering of a 32-bit word. -/
def hex32 (x : Nat) : List Char :=
  [hexDigit ((x >>> 28) % 16), hexDigit ((x >>> 24) % 16), hexDigit ((x >>> 20) % 16),
   hexDigit ((x >>> 16) % 16), hexDigit ((x >>> 12) % 16), hexDigit ((x >>> 8) % 16),
   hexDigit ((x >>> 4) % 16), hexDigit (x % 16)]

/-- The 64 hex characters of the SHA-256 hash of a string's UTF-8 bytes. -/
def sha256HexChars (s : String) : List Char :=
  ((sha256Words (strBytes s)).map hex32).flatten

/-- Hex digest of the SHA-256 hash of a string's UTF-8 bytes; this is what
Python's `hashlib.sha256(text.encode()).hexdigest()` returns. -/
def sha256Hex (s : String) : String :=
  ⟨sha256HexChars s⟩

/-! ## The fingerprint calculator -/

/-- Modelled from the spec: the fingerprint calculator `calculate_id` of the
editing core (`src/text_editor/server.py`, not present in the sources).
"`fingerprint(text) -> tag`: tag = first 2 hex characters of a cryptographic
hash of `text` encoded as bytes"; "`fingerprint(text, start, end) -> tag`:
tag = `\x7bL{start}-{end}-\x7d + fingerprint(text)`".  The optional `start`/`end`
arguments mirror Python's `calculate_id(text, start=None, end=None)`;
Lean reserves the word `end`, so the second range argument is named `stop`. -/
def calculate_id (text : String) (start stop : Option Nat) : String :=
  match start, stop with
  | some a, some b =>
      "L" ++ toString a ++ "-" ++ toString b ++ "-" ++ ⟨(sha256HexChars text).take 2⟩
  | _, _ => ⟨(sha256HexChars text).take 2⟩

/-! ## Data model of the editing session -/

/-- A file as the line-oriented file store hands it to the core: its text
lines without terminators, plus whether the final line carries a trailing
line terminator. -/
structure FileContent where
  lines : List String
  trailingNewline : Bool
  deriving DecidableEq

/-- One entry of the file store: the path is absent, readable content, or a
file whose read fails with an I/O error. -/
inductive FileEntry where
  | absent
  | readError (msg : String)
  | content (c : FileContent)
  deriving DecidableEq

/-- The file store: a map from paths to file entries. -/
def FS : Type := String → FileEntry

/-- The stored selection: a 1-based inclusive line range and its
range-scoped fingerprint. -/
structure Selection where
  start_line : Nat
  end_line : Nat
  id : String
  deriving DecidableEq

/-- A diff entry tag: a context line carrying its original line number, a
removed line tagged `-{original line number}`, or an added line tagged
`+{1-based index within the replacement}`. -/
inductive DiffTag where
  | ctx (n : Nat)
  | removed (n : Nat)
  | added (n : Nat)
  deriving DecidableEq

/-- One diff preview entry: a tag and the line's text. -/
abbrev DiffEntry : Type := DiffTag × String

/-- The parked pending edit: the snapshot of the selection range, the
proposed replacement lines, the candidate whole-file body and the rendered
diff preview. -/
structure PendingEdit where
  start_line : Nat
  end_line : Nat
  new_lines : List String
  content : FileContent
  diff : List DiffEntry

/-- The session state of the editor: current file path, active selection,
pending edit and the configured ceiling on selectable lines. -/
structure ServerState where
  current_file_path : Option String
  active_selection : Option Selection
  pending_edit : Option PendingEdit
  max_edit_lines : Nat

/-- The caller's decision on a pending edit. -/
inductive Decision where
  | accept
  | reject

/-- Outcome of the file store's one fallible operation, the atomic
whole-file write: it either succeeds or fails with an I/O error message. -/
inductive WriteOutcome where
  | ok
  | failure (msg : String)

/-- Result of `select`. -/
inductive SelectResult where
  | error (msg : String)
  | success (id : String) (stop : Nat)
  deriving DecidableEq

/-- Result of `overwrite`. -/
inductive OverwriteResult where
  | error (msg : String)
  | preview (msg : String) (diff_lines : List DiffEntry)
  deriving DecidableEq

/-- Result of `decide`. -/
inductive DecideResult where
  | error (msg : String)
  | success (msg : String)
  deriving DecidableEq

/-! ## Raw text of files and ranges -/

/-- The raw units of a file: each line with its terminator; the final line
carries one only when the file ends in a terminator. -/
def rawUnits (trailing : Bool) : List String → List String
  | [] => []
  | [l] => [l ++ if trailing then "\n" else ""]
  | l :: l' :: rest => (l ++ "\n") :: rawUnits trailing (l' :: rest)

/-- The exact character content of a file, as the file store serializes it. -/
def FileContent.render (c : FileContent) : String :=
  String.join (rawUnits c.trailingNewline c.lines)

/-- The raw text of the 1-based inclusive line range `[s, e]` of a file,
terminators included, as the core reads it for fingerprinting. -/
def extractRaw (c : FileContent) (s e : Nat) : String :=
  String.join (((rawUnits c.trailingNewline c.lines).drop (s - 1)).take (e + 1 - s))

/-! ## Syntax validation gate -/

/-- Outcome of one language checker on a full candidate body. -/
inductive CheckOutcome where
  | ok
  | fail (detail : String)

/-- Modelled from the spec: the language checkers behind the extension-keyed
validation dispatch of the editing core (`src/text_editor/server.py`, not
present in the sources).  `python` is the native parser used for `.py`
bodies; `javascript` is the external checking process used for `.js` and
`.jsx` bodies.  Both are opaque to the core, so they are parameters of the
model. -/
structure Validators where
  python : String → CheckOutcome
  javascript : String → CheckOutcome

/-- The characters after the last dot of a character list, or `none` when
there is no dot. -/
def extAux : List Char → Option (List Char)
  | [] => none
  | c :: rest =>
      match extAux rest with
      | some e => some e
      | none => if c = '.' then some rest else none

/-- The extension of a path: the part after the last dot, `""` when the path
has no dot. -/
def extensionOf (p : String) : String :=
  match extAux p.data with
  | some e => ⟨e⟩
  | none => ""

/-- Modelled from the spec: the syntax validator dispatch of the editing
core (`src/text_editor/server.py`, not present in the sources).  The
candidate whole-file body is dispatched on the file's extension: `.py`
bodies go to the Python parser and a failure yields
"Python syntax error: \x7bdetail\x7d"; `.js` and `.jsx` bodies go to the external
JavaScript checker and a failure yields "JavaScript syntax error: \x7bdetail\x7d";
any other extension always succeeds, with no check performed.  `none` means
the body passed. -/
def checkBody (v : Validators) (p body : String) : Option String :=
  if extensionOf p = "py" then
    match v.python body with
    | .ok => none
    | .fail d => some ("Python syntax error: " ++ d)
  else if extensionOf p = "js" ∨ extensionOf p = "jsx" then
    match v.javascript body with
    | .ok => none
    | .fail d => some ("JavaScript syntax error: " ++ d)
  else none

/-! ## Diff preview builder -/

/-- Modelled from the spec: the diff preview builder `generate_diff_preview`
of the editing core (`src/text_editor/server.py`, not present in the
sources).  It renders the replacement of the 1-based inclusive range
`[s, e]` of `original` by `proposed` as a coarse block diff: context
entries for the lines before `s` under their original numbering, one
removed entry per original selected line, one added entry per proposed line
numbered by its 1-based index within the replacement, then context entries
for the lines after `e` under the unchanged original numbering. -/
def generate_diff_preview (original proposed : List String) (s e : Nat) : List DiffEntry :=
  ((List.range' 1 (s - 1)).map fun i => (DiffTag.ctx i, original.getD (i - 1) "")) ++
  ((List.range' s (min e original.length + 1 - s)).map
    fun i => (DiffTag.removed i, original.getD (i - 1) "")) ++
  ((List.range' 1 proposed.length).map fun i => (DiffTag.added i, proposed.getD (i - 1) "")) ++
  ((List.range' (e + 1) (original.length - e)).map
    fun i => (DiffTag.ctx i, original.getD (i - 1) ""))

/-! ## The operations -/

/-- Modelled from the spec: the `set_file` operation of the editing core
(`src/text_editor/server.py`, not present in the sources).  A path present
in the file store becomes the session's current file; a path absent from
the file store yields "Error: File not found" and leaves the whole session
state unchanged. -/
def set_file (st : ServerState) (fs : FS) (p : String) : String × ServerState × FS :=
  match fs p with
  | .absent => ("Error: File not found", st, fs)
  | _ => ("File set to: " ++ p,
          { st with current_file_path := some p,
                    active_selection := none,
                    pending_edit := none }, fs)

/-- Modelled from the spec: the `select` operation of the editing core
(`src/text_editor/server.py`, not present in the sources).  It validates
the 1-based range, re-reads the file, clamps `e` to the file's total line
count, enforces the `max_edit_lines` ceiling on the clamped range, and on
success stores the selection with its range-scoped fingerprint and reports
the clamped end back. -/
def select (st : ServerState) (fs : FS) (s e : Nat) : SelectResult × ServerState × FS :=
  match st.current_file_path with
  | none => (.error "No file path is set", st, fs)
  | some p =>
    if s < 1 then (.error "start must be at least 1", st, fs)
    else if e < s then (.error "start cannot be greater than end", st, fs)
    else
      match fs p with
      | .absent => (.error "Error: File not found", st, fs)
      | .readError m => (.error ("Error reading file: " ++ m), st, fs)
      | .content c =>
        if st.max_edit_lines < min e c.lines.length + 1 - s then
          (.error ("Cannot select more than " ++ toString st.max_edit_lines ++
                   " lines at once"), st, fs)
        else
          (.success
            (calculate_id (extractRaw c s (min e c.lines.length)) (some s)
              (some (min e c.lines.length)))
            (min e c.lines.length),
           { st with active_selection := some (Selection.mk s (min e c.lines.length)
              (calculate_id (extractRaw c s (min e c.lines.length)) (some s)
                (some (min e c.lines.length)))) },
           fs)

/-- Modelled from the spec: the `overwrite` operation (propose) of the
editing core (`src/text_editor/server.py`, not present in the sources).
It re-reads the file, recomputes the fingerprint over the stored
selection's line range and compares it to the stored one (mismatch is the
concurrency failure), builds the candidate whole-file body from the lines
before the range, the proposed lines and the lines after the range,
dispatches the candidate body to the syntax validation gate, and on
success parks a pending edit and returns the diff preview.  It never
writes to the file store. -/
def overwrite (v : Validators) (st : ServerState) (fs : FS) (newLines : List String) :
    OverwriteResult × ServerState × FS :=
  match st.current_file_path with
  | none => (.error "No file path is set", st, fs)
  | some p =>
    match st.active_selection with
    | none => (.error "No selection is active. Please select lines first", st, fs)
    | some sel =>
      match fs p with
      | .absent => (.error "Error: File not found", st, fs)
      | .readError m => (.error ("Error reading file: " ++ m), st, fs)
      | .content c =>
        if calculate_id (extractRaw c sel.start_line (min sel.end_line c.lines.length))
             (some sel.start_line) (some (min sel.end_line c.lines.length)) = sel.id then
          match checkBody v p (FileContent.render (FileContent.mk
              (c.lines.take (sel.start_line - 1) ++ newLines ++ c.lines.drop sel.end_line)
              c.trailingNewline)) with
          | some m => (.error m, st, fs)
          | none =>
            (.preview "Changes ready to apply"
              (generate_diff_preview c.lines newLines sel.start_line sel.end_line),
             { st with pending_edit := some (PendingEdit.mk sel.start_line sel.end_line
                newLines
                (FileContent.mk
                  (c.lines.take (sel.start_line - 1) ++ newLines ++ c.lines.drop sel.end_line)
                  c.trailingNewline)
                (generate_diff_preview c.lines newLines sel.start_line sel.end_line)) },
             fs)
        else
          (.error "Error: id verification failed - the file has been modified since selection",
           st, fs)

/-- Modelled from the spec: the `decide` operation of the editing core
(`src/text_editor/server.py`, not present in the sources).  With no
pending edit it is the state error "No pending edit".  `reject` discards
the pending edit without touching the file.  `accept` writes the pending
edit's candidate body atomically: on write failure the file, the pending
edit and the selection are all left untouched so the caller may retry; on
success the candidate body replaces the file's content and both the
pending edit and the selection are cleared. -/
def decide (st : ServerState) (fs : FS) (d : Decision) (w : WriteOutcome) :
    DecideResult × ServerState × FS :=
  match st.pending_edit with
  | none => (.error "No pending edit", st, fs)
  | some pe =>
    match d with
    | .reject => (.success "Changes rejected", { st with pending_edit := none }, fs)
    | .accept =>
      match st.current_file_path with
      | none => (.error "No file path is set", st, fs)
      | some p =>
        match w with
        | .failure m => (.error ("Error writing to file: " ++ m), st, fs)
        | .ok =>
          (.success "Changes applied successfully",
           { st with pending_edit := none, active_selection := none },
           fun q => if q = p then .content pe.content else fs q)

/-! ## Concrete example material for witnesses -/

/-- The 5-line example file of the test suite. -/
def exFile5 : FileContent :=
  ⟨["Line 1", "Line 2", "Line 3", "Line 4", "Line 5"], true⟩

/-- A file store holding the example file at path "f". -/
def exFS : FS := fun q => if q = "f" then .content exFile5 else .absent

/-- A session pointed at path "f" with the test suite's ceiling of 200. -/
def exState : ServerState := ⟨some "f", none, none, 200⟩

/-- Validators that accept every body. -/
def exOkValidators : Validators := ⟨fun _ => .ok, fun _ => .ok⟩

/-- The example file externally rewritten only outside the selected lines
2-3: line 5 changed, lines 2-3 intact. -/
def exKeepFile : FileContent :=
  ⟨["Line 1", "Line 2", "Line 3", "Line 4", "Line 5 changed"], true⟩

/-- A file store holding the partially rewritten file at path "f". -/
def exKeepFS : FS := fun q => if q = "f" then .content exKeepFile else .absent

/-- The example file externally rewritten on every line, as in the test
suite's concurrency test. -/
def exModFile : FileContent :=
  ⟨["Modified Line 1", "Modified Line 2", "Modified Line 3", "Modified Line 4",
    "Modified Line 5"], true⟩

/-- A file store holding the fully rewritten file at path "f". -/
def exModFS : FS := fun q => if q = "f" then .content exModFile else .absent

/-- Validators whose Python checker rejects every body with detail
"invalid syntax". -/
def exPyFailValidators : Validators := ⟨fun _ => .fail "invalid syntax", fun _ => .ok⟩

/-- A file store holding the example file at the Python path "a.py". -/
def exPyFS : FS := fun q => if q = "a.py" then .content exFile5 else .absent

/-- The test suite's 3-line file whose last line has no trailing
terminator. -/
def exFile3NoNl : FileContent := ⟨["Line 1", "Line 2", "Line 3"], false⟩

/-- A file store holding the no-trailing-terminator file at path "g". -/
def exFS3 : FS := fun q => if q = "g" then .content exFile3NoNl else .absent

/-- A session pointed at path "g" with ceiling 200. -/
def exState3 : ServerState := ⟨some "g", none, none, 200⟩

/-! ## Reduction lemmas for the operations -/

/-- `select` in a valid session on a readable file, below the ceiling,
stores the selection fingerprinted over the clamped range and reports the
clamped end back. -/
lemma select_success_eq (st : ServerState) (fs : FS) (p : String) (c : FileContent)
    (s e : Nat) (hp : st.current_file_path = some p) (hc : fs p = .content c)
    (h1 : 1 ≤ s) (h2 : s ≤ e)
    (hmax : min e c.lines.length + 1 - s ≤ st.max_edit_lines) :
    select st fs s e =
      (.success (calculate_id (extractRaw c s (min e c.lines.length)) (some s)
          (some (min e c.lines.length))) (min e c.lines.length),
       { st with active_selection := some (Selection.mk s (min e c.lines.length)
          (calculate_id (extractRaw c s (min e c.lines.length)) (some s)
            (some (min e c.lines.length)))) },
       fs) := by
  unfold select
  rw [hp]
  simp only
  rw [if_neg (by omega), if_neg (by omega), hc]
  simp only
  rw [if_neg (by omega)]

/-- `select` whose clamped range exceeds the `max_edit_lines` ceiling fails
with the ceiling message and stores nothing. -/
lemma select_ceiling_eq (st : ServerState) (fs : FS) (p : String) (c : FileContent)
    (s e : Nat) (hp : st.current_file_path = some p) (hc : fs p = .content c)
    (h1 : 1 ≤ s) (h2 : s ≤ e)
    (hover : st.max_edit_lines < min e c.lines.length + 1 - s) :
    select st fs s e =
      (.error ("Cannot select more than " ++ toString st.max_edit_lines ++
        " lines at once"), st, fs) := by
  unfold select
  rw [hp]
  simp only
  rw [if_neg (by omega), if_neg (by omega), hc]
  simp only
  rw [if_pos hover]

/-- `overwrite` whose recomputed fingerprint matches the stored one and
whose candidate body passes validation parks the pending edit and returns
the diff preview. -/
lemma overwrite_success_eq (v : Validators) (st : ServerState) (fs : FS) (p : String)
    (c : FileContent) (sel : Selection) (R : List String)
    (hp : st.current_file_path = some p) (hsel : st.active_selection = some sel)
    (hc : fs p = .content c)
    (hid : calculate_id (extractRaw c sel.start_line (min sel.end_line c.lines.length))
        (some sel.start_line) (some (min sel.end_line c.lines.length)) = sel.id)
    (hv : checkBody v p (FileContent.render (FileContent.mk
        (c.lines.take (sel.start_line - 1) ++ R ++ c.lines.drop sel.end_line)
        c.trailingNewline)) = none) :
    overwrite v st fs R =
      (.preview "Changes ready to apply"
        (generate_diff_preview c.lines R sel.start_line sel.end_line),
       { st with pending_edit := some (PendingEdit.mk sel.start_line sel.end_line R
          (FileContent.mk
            (c.lines.take (sel.start_line - 1) ++ R ++ c.lines.drop sel.end_line)
            c.trailingNewline)
          (generate_diff_preview c.lines R sel.start_line sel.end_line)) },
       fs) := by
  unfold overwrite
  rw [hp]
  simp only
  rw [hsel]
  simp only
  rw [hc]
  simp only
  rw [if_pos hid, hv]

/-- `overwrite` whose recomputed fingerprint differs from the stored one
fails with the id-verification message and changes nothing. -/
lemma overwrite_mismatch_eq (v : Validators) (st : ServerState) (fs : FS) (p : String)
    (c : FileContent) (sel : Selection) (R : List String)
    (hp : st.current_file_path = some p) (hsel : st.active_selection = some sel)
    (hc : fs p = .content c)
    (hmm : calculate_id (extractRaw c sel.start_line (min sel.end_line c.lines.length))
        (some sel.start_line) (some (min sel.end_line c.lines.length)) ≠ sel.id) :
    overwrite v st fs R =
      (.error "Error: id verification failed - the file has been modified since selection",
       st, fs) := by
  unfold overwrite
  rw [hp]
  simp only
  rw [hsel]
  simp only
  rw [hc]
  simp only
  rw [if_neg hmm]

/-- `overwrite` whose recomputed fingerprint matches but whose candidate
body fails validation returns the validator's message and changes no
state. -/
lemma overwrite_checkfail_eq (v : Validators) (st : ServerState) (fs : FS) (p : String)
    (c : FileContent) (sel : Selection) (R : List String) (m : String)
    (hp : st.current_file_path = some p) (hsel : st.active_selection = some sel)
    (hc : fs p = .content c)
    (hid : calculate_id (extractRaw c sel.start_line (min sel.end_line c.lines.length))
        (some sel.start_line) (some (min sel.end_line c.lines.length)) = sel.id)
    (hv : checkBody v p (FileContent.render (FileContent.mk
        (c.lines.take (sel.start_line - 1) ++ R ++ c.lines.drop sel.end_line)
        c.trailingNewline)) = some m) :
    overwrite v st fs R = (.error m, st, fs) := by
  unfold overwrite
  rw [hp]
  simp only
  rw [hsel]
  simp only
  rw [hc]
  simp only
  rw [if_pos hid, hv]

/-- A successful `decide`(accept) writes the pending candidate body to the
current path and clears the pending edit and the selection. -/
lemma decide_accept_ok_eq (st : ServerState) (fs : FS) (pe : PendingEdit) (p : String)
    (hpe : st.pending_edit = some pe) (hp : st.current_file_path = some p) :
    decide st fs .accept .ok =
      (.success "Changes applied successfully",
       { st with pending_edit := none, active_selection := none },
       fun q => if q = p then .content pe.content else fs q) := by
  unfold decide
  rw [hpe]
  simp only
  rw [hp]


/-! ## Frame lemmas: only decide(accept) ever writes -/

/-- `set_file` never changes the file store. -/
lemma set_file_keeps_fs (st : ServerState) (fs : FS) (q : String) :
    (set_file st fs q).2.2 = fs := by
  unfold set_file
  split <;> rfl

/-- `select` never changes the file store. -/
lemma select_keeps_fs (st : ServerState) (fs : FS) (s e : Nat) :
    (select st fs s e).2.2 = fs := by
  unfold select
  split
  · rfl
  · split
    · rfl
    · split
      · rfl
      · split
        · rfl
        · rfl
        · split <;> rfl

/-- `overwrite` never changes the file store. -/
lemma overwrite_keeps_fs (v : Validators) (st : ServerState) (fs : FS) (R : List String) :
    (overwrite v st fs R).2.2 = fs := by
  unfold overwrite
  split
  · rfl
  · split
    · rfl
    · split
      · rfl
      · rfl
      · split
        · split <;> rfl
        · rfl

/-- A `decide` call that reports an error leaves the file store unchanged. -/
lemma decide_error_keeps_fs (st : ServerState) (fs : FS) (d : Decision) (w : WriteOutcome)
    (m : String) (h : (decide st fs d w).1 = .error m) : (decide st fs d w).2.2 = fs := by
  unfold decide at h ⊢
  split at h
  · rfl
  · split at h
    · exact absurd h (by simp)
    · split at h
      · rfl
      · split at h
        · rfl
        · exact absurd h (by simp)

/-! ## Claim theorems -/

/-- C3: every operation invocation that returns a failure result before
decide(accept) - invalid range, ceiling exceeded, missing file, selection
or pending edit, fingerprint mismatch, syntax-validation failure, read
error, or a failed write inside decide - leaves the target file's content
in the file store identical to its content before the call. -/
theorem C3_failures_leave_file_unchanged :
    (∀ (st : ServerState) (fs : FS) (q : String),
      (set_file st fs q).1 = "Error: File not found" → (set_file st fs q).2.2 = fs) ∧
    (∀ (st : ServerState) (fs : FS) (s e : Nat) (m : String),
      (select st fs s e).1 = .error m → (select st fs s e).2.2 = fs) ∧
    (∀ (v : Validators) (st : ServerState) (fs : FS) (R : List String) (m : String),
      (overwrite v st fs R).1 = .error m → (overwrite v st fs R).2.2 = fs) ∧
    (∀ (st : ServerState) (fs : FS) (d : Decision) (w : WriteOutcome) (m : String),
      (decide st fs d w).1 = .error m → (decide st fs d w).2.2 = fs) :=
  ⟨fun st fs q _ => set_file_keeps_fs st fs q,
   fun st fs s e _ _ => select_keeps_fs st fs s e,
   fun v st fs R _ _ => overwrite_keeps_fs v st fs R,
   fun st fs d w m h => decide_error_keeps_fs st fs d w m h⟩

/-- C3 witness: a concrete failing select (start 0) leaves the file store
unchanged. -/
theorem C3_failures_leave_file_unchanged_witness :
    (select (ServerState.mk (some "f") none none 200)
      (fun q => if q = "f" then .content ⟨["Line 1"], true⟩ else .absent) 0 2).2.2 =
      (fun q => if q = "f" then FileEntry.content ⟨["Line 1"], true⟩ else .absent) :=
  C3_failures_leave_file_unchanged.2.1 _ _ 0 2 "start must be at least 1" rfl

/-- C6: `calculate_id` is a pure deterministic function: with no range it is
the first 2 hex characters of the SHA-256 hash of the text's bytes (so two
calls on the same text agree), and with a range `a`, `b` it is exactly
"L{a}-{b}-" concatenated with the bare fingerprint - hence it starts with
that range tag and ends with the bare fingerprint. -/
theorem C6_calculate_id_pure :
    (∀ t : String, calculate_id t none none = ⟨(sha256Hex t).data.take 2⟩) ∧
    (∀ t : String, calculate_id t none none = calculate_id t none none) ∧
    (∀ (t : String) (a b : Nat),
      calculate_id t (some a) (some b) =
        "L" ++ toString a ++ "-" ++ toString b ++ "-" ++ calculate_id t none none) ∧
    (∀ (t : String) (a b : Nat), ∃ rest,
      calculate_id t (some a) (some b) =
        "L" ++ toString a ++ "-" ++ toString b ++ "-" ++ rest) ∧
    (∀ (t : String) (a b : Nat), ∃ pre,
      calculate_id t (some a) (some b) = pre ++ calculate_id t none none) :=
  ⟨fun _ => rfl, fun _ => rfl, fun _ _ _ => rfl,
   fun t _ _ => ⟨calculate_id t none none, rfl⟩,
   fun _ a b => ⟨"L" ++ toString a ++ "-" ++ toString b ++ "-", rfl⟩⟩

/-- C5: `decide` requires a pending edit (a call with none, including a
second decide after a successful accept consumed it, is the state error
"No pending edit"); accept with a failing write reports
"Error writing to file: {detail}" and leaves the file store, the pending
edit and the selection untouched; a successful accept writes the pending
candidate body, clears the pending edit and the selection, and reports
success "Changes applied successfully". -/
theorem C5_decide_semantics :
    (∀ (st : ServerState) (fs : FS) (d : Decision) (w : WriteOutcome),
      st.pending_edit = none → decide st fs d w = (.error "No pending edit", st, fs)) ∧
    (∀ (st : ServerState) (fs : FS) (pe : PendingEdit) (p m : String),
      st.pending_edit = some pe → st.current_file_path = some p →
      decide st fs .accept (.failure m) =
        (.error ("Error writing to file: " ++ m), st, fs)) ∧
    (∀ (st : ServerState) (fs : FS) (pe : PendingEdit) (p : String),
      st.pending_edit = some pe → st.current_file_path = some p →
      (decide st fs .accept .ok).1 = .success "Changes applied successfully" ∧
      (decide st fs .accept .ok).2.1.pending_edit = none ∧
      (decide st fs .accept .ok).2.1.active_selection = none ∧
      (decide st fs .accept .ok).2.2 p = .content pe.content) ∧
    (∀ (st : ServerState) (fs fs' : FS) (pe : PendingEdit) (p : String) (d : Decision)
        (w : WriteOutcome),
      st.pending_edit = some pe → st.current_file_path = some p →
      (decide ((decide st fs .accept .ok).2.1) fs' d w).1 = .error "No pending edit") := by
  refine ⟨?_, ?_, ?_, ?_⟩
  · intro st fs d w h
    unfold decide
    rw [h]
  · intro st fs pe p m hpe hp
    unfold decide
    rw [hpe]
    simp only
    rw [hp]
  · intro st fs pe p hpe hp
    unfold decide
    rw [hpe]
    simp only
    rw [hp]
    exact ⟨rfl, rfl, rfl, by simp⟩
  · intro st fs fs' pe p d w hpe hp
    unfold decide
    rw [hpe]
    simp only
    rw [hp]

/-- C5 witness: with a parked pending edit, a failing write reports the
write error and keeps everything; a successful accept writes the candidate
body and clears the pending edit and selection; a second decide is then
rejected with "No pending edit". -/
theorem C5_decide_semantics_witness :
    (decide (ServerState.mk (some "f") (some ⟨2, 3, "x"⟩)
        (some ⟨2, 3, [], ⟨["Line 1"], true⟩, []⟩) 200)
      (fun _ => .absent) .accept (.failure "Mock file write error")).1 =
      .error "Error writing to file: Mock file write error" ∧
    (decide (ServerState.mk (some "f") (some ⟨2, 3, "x"⟩)
        (some ⟨2, 3, [], ⟨["Line 1"], true⟩, []⟩) 200)
      (fun _ => .absent) .accept .ok).2.2 "f" = .content ⟨["Line 1"], true⟩ ∧
    (decide ((decide (ServerState.mk (some "f") (some ⟨2, 3, "x"⟩)
        (some ⟨2, 3, [], ⟨["Line 1"], true⟩, []⟩) 200)
      (fun _ => .absent) .accept .ok).2.1) (fun _ => .absent) .reject .ok).1 =
      .error "No pending edit" :=
  ⟨by
    rw [C5_decide_semantics.2.1 _ _ ⟨2, 3, [], ⟨["Line 1"], true⟩, []⟩ "f"
      "Mock file write error" rfl rfl]
    rfl,
   (C5_decide_semantics.2.2.1 _ _ ⟨2, 3, [], ⟨["Line 1"], true⟩, []⟩ "f" rfl rfl).2.2.2,
   C5_decide_semantics.2.2.2 _ _ (fun _ => .absent) ⟨2, 3, [], ⟨["Line 1"], true⟩, []⟩ "f"
     .reject .ok rfl rfl⟩

/-- C10: for every path absent from the file store, `set_file` returns the
"Error: File not found" message and leaves the whole session state
unchanged - in particular `current_file_path` stays as it was (still unset
when no file had been set), and no selection or pending edit is created. -/
theorem C10_set_file_missing (st : ServerState) (fs : FS) (q : String)
    (h : fs q = .absent) : set_file st fs q = ("Error: File not found", st, fs) := by
  unfold set_file
  rw [h]

/-- C10 witness: `set_file` on a missing path in a fresh session fails and
leaves the fresh session state intact. -/
theorem C10_set_file_missing_witness :
    set_file (ServerState.mk none none none 200) (fun _ => FileEntry.absent)
        "/path/to/nonexistent/file.txt" =
      ("Error: File not found", ServerState.mk none none none 200,
       fun _ => FileEntry.absent) :=
  C10_set_file_missing _ _ _ rfl

/-- C7: for a `select(s, e)` with `1 ≤ s ≤ e` on the current file, `e` is
first clamped to the file's total line count (an over-long end is never an
error; the clamped value is reported back, e.g. select(1, 1000) on a
5-line file succeeds with end 5); then a clamped range longer than
`max_edit_lines` fails with "Cannot select more than {max_edit_lines} lines
at once" and stores no selection, while a clamped range of at most
`max_edit_lines` lines (in particular exactly `max_edit_lines` lines)
succeeds and stores the selection. -/
theorem C7_select_clamp_and_ceiling (st : ServerState) (fs : FS) (p : String)
    (c : FileContent) (s e : Nat)
    (hp : st.current_file_path = some p) (hc : fs p = .content c)
    (h1 : 1 ≤ s) (h2 : s ≤ e) :
    (st.max_edit_lines < min e c.lines.length + 1 - s →
      select st fs s e =
        (.error ("Cannot select more than " ++ toString st.max_edit_lines ++
          " lines at once"), st, fs)) ∧
    (min e c.lines.length + 1 - s ≤ st.max_edit_lines →
      (select st fs s e).1 =
        .success (calculate_id (extractRaw c s (min e c.lines.length)) (some s)
          (some (min e c.lines.length))) (min e c.lines.length) ∧
      (select st fs s e).2.1.active_selection =
        some (Selection.mk s (min e c.lines.length)
          (calculate_id (extractRaw c s (min e c.lines.length)) (some s)
            (some (min e c.lines.length))))) :=
  ⟨fun hover => select_ceiling_eq st fs p c s e hp hc h1 h2 hover,
   fun hmax => by rw [select_success_eq st fs p c s e hp hc h1 h2 hmax]; exact ⟨rfl, rfl⟩⟩

/-- C7 witness: on a 5-line file, select(1, 1000) with ceiling 200 succeeds
with the clamped end 5, and select(1, 5) with ceiling 2 fails with the
ceiling message, storing no selection. -/
theorem C7_select_clamp_and_ceiling_witness :
    ((select (ServerState.mk (some "f") none none 200) exFS 1 1000).1 =
      .success (calculate_id (extractRaw exFile5 1 5) (some 1) (some 5)) 5) ∧
    select (ServerState.mk (some "f") none none 2) exFS 1 5 =
      (.error "Cannot select more than 2 lines at once",
       ServerState.mk (some "f") none none 2, exFS) :=
  ⟨((C7_select_clamp_and_ceiling (ServerState.mk (some "f") none none 200) exFS "f"
      exFile5 1 1000 rfl rfl (by decide) (by decide)).2 (by decide)).1,
   (C7_select_clamp_and_ceiling (ServerState.mk (some "f") none none 2) exFS "f"
      exFile5 1 5 rfl rfl (by decide) (by decide)).1 (by decide)⟩

/-- C2 counterexample: the claim quantifies over every external rewrite of
the file between select and overwrite, but the fingerprint is recomputed
only over the stored selection's line range, so an external rewrite that
leaves the selected lines intact (here it changes line 5 while lines 2-3
are selected) is not detected: the subsequent overwrite returns the
"preview" success result instead of failing with a ConcurrencyError. -/
theorem C2_concurrency_counterexample :
    exFile5 ≠ exKeepFile ∧
    (overwrite exOkValidators (select exState exFS 2 3).2.1 exKeepFS ["New content"]).1 =
      .preview "Changes ready to apply"
        (generate_diff_preview exKeepFile.lines ["New content"] 2 3) := by
  constructor
  · decide
  · rfl

/-- C2 (amended): for every external rewrite of the file between select and
overwrite whose freshly recomputed fingerprint over the stored selection's
line range differs from the stored fingerprint, the overwrite fails with
the ConcurrencyError message (which contains "id verification failed"),
the file store is not mutated, and the whole session state - in particular
the stored selection - is left intact for the caller to re-select. -/
theorem C2_concurrency_detection (v : Validators) (st : ServerState) (fs : FS)
    (p : String) (c : FileContent) (sel : Selection) (R : List String)
    (hp : st.current_file_path = some p) (hsel : st.active_selection = some sel)
    (hc : fs p = .content c)
    (hmm : calculate_id (extractRaw c sel.start_line (min sel.end_line c.lines.length))
        (some sel.start_line) (some (min sel.end_line c.lines.length)) ≠ sel.id) :
    (overwrite v st fs R).1 =
      .error ("Error: " ++ "id verification failed" ++
        " - the file has been modified since selection") ∧
    (overwrite v st fs R).2.1 = st ∧
    (overwrite v st fs R).2.2 = fs ∧
    (overwrite v st fs R).2.1.active_selection = some sel := by
  rw [overwrite_mismatch_eq v st fs p c sel R hp hsel hc hmm]
  exact ⟨rfl, rfl, rfl, hsel⟩

/-- C2 (amended) witness: selecting lines 2-3 of the 5-line file, then
externally rewriting every line, makes the recomputed fingerprint differ
("L2-3-51" against the stored "L2-3-a7"), so the overwrite fails with the
id-verification error and leaves the selection and the file store intact. -/
theorem C2_concurrency_detection_witness :
    ((overwrite exOkValidators (select exState exFS 2 3).2.1 exModFS ["New content"]).1 =
      .error ("Error: " ++ "id verification failed" ++
        " - the file has been modified since selection")) ∧
    (overwrite exOkValidators (select exState exFS 2 3).2.1 exModFS ["New content"]).2.2 =
      exModFS :=
  ⟨(C2_concurrency_detection exOkValidators _ exModFS "f" exModFile
      (Selection.mk 2 3 (calculate_id (extractRaw exFile5 2 3) (some 2) (some 3)))
      ["New content"] rfl rfl rfl (by decide)).1,
   (C2_concurrency_detection exOkValidators _ exModFS "f" exModFile
      (Selection.mk 2 3 (calculate_id (extractRaw exFile5 2 3) (some 2) (some 3)))
      ["New content"] rfl rfl rfl (by decide)).2.2.1⟩

/-- C4: when `overwrite` runs on a file whose extension the validation gate
recognizes (here `.py`) and the candidate whole-file body fails that
language's check with detail `d`, the overwrite fails with exactly
"Python syntax error: {d}", the file store and the session state are left
untouched (no pending edit is created); and for every path whose extension
is none of the recognized ones, validation always succeeds with no check
performed. -/
theorem C4_syntax_gate :
    (∀ (v : Validators) (st : ServerState) (fs : FS) (p d : String) (c : FileContent)
        (sel : Selection) (R : List String),
      st.current_file_path = some p → st.active_selection = some sel →
      fs p = .content c →
      calculate_id (extractRaw c sel.start_line (min sel.end_line c.lines.length))
          (some sel.start_line) (some (min sel.end_line c.lines.length)) = sel.id →
      extensionOf p = "py" →
      v.python (FileContent.render (FileContent.mk
          (c.lines.take (sel.start_line - 1) ++ R ++ c.lines.drop sel.end_line)
          c.trailingNewline)) = .fail d →
      (overwrite v st fs R).1 = .error ("Python syntax error: " ++ d) ∧
      (overwrite v st fs R).2.1 = st ∧
      (overwrite v st fs R).2.2 = fs ∧
      (overwrite v st fs R).2.1.pending_edit = st.pending_edit) ∧
    (∀ (v : Validators) (p body : String),
      extensionOf p ≠ "py" → extensionOf p ≠ "js" → extensionOf p ≠ "jsx" →
      checkBody v p body = none) := by
  constructor
  · intro v st fs p d c sel R hp hsel hc hid hext hfail
    have hcb : checkBody v p (FileContent.render (FileContent.mk
        (c.lines.take (sel.start_line - 1) ++ R ++ c.lines.drop sel.end_line)
        c.trailingNewline)) = some ("Python syntax error: " ++ d) := by
      unfold checkBody
      rw [if_pos hext, hfail]
    rw [overwrite_checkfail_eq v st fs p c sel R ("Python syntax error: " ++ d)
      hp hsel hc hid hcb]
    exact ⟨rfl, rfl, rfl, rfl⟩
  · intro v p body h1 h2 h3
    unfold checkBody
    rw [if_neg h1, if_neg (by simp [h2, h3])]

/-- C4 witness: on "a.py" with a Python checker that rejects every body, an
otherwise valid overwrite fails with "Python syntax error: invalid syntax"
and creates no pending edit; and a dot-less path is never checked. -/
theorem C4_syntax_gate_witness :
    ((overwrite exPyFailValidators
        (ServerState.mk (some "a.py")
          (some (Selection.mk 2 3
            (calculate_id (extractRaw exFile5 2 (min 3 exFile5.lines.length)) (some 2)
              (some (min 3 exFile5.lines.length))))) none 200)
        exPyFS ["z"]).1 = .error ("Python syntax error: " ++ "invalid syntax")) ∧
    ((overwrite exPyFailValidators
        (ServerState.mk (some "a.py")
          (some (Selection.mk 2 3
            (calculate_id (extractRaw exFile5 2 (min 3 exFile5.lines.length)) (some 2)
              (some (min 3 exFile5.lines.length))))) none 200)
        exPyFS ["z"]).2.1.pending_edit = none) ∧
    checkBody exPyFailValidators "f" "anything" = none :=
  ⟨(C4_syntax_gate.1 exPyFailValidators _ exPyFS "a.py" "invalid syntax" exFile5
      (Selection.mk 2 3
        (calculate_id (extractRaw exFile5 2 (min 3 exFile5.lines.length)) (some 2)
          (some (min 3 exFile5.lines.length))))
      ["z"] rfl rfl rfl rfl rfl rfl).1,
   (C4_syntax_gate.1 exPyFailValidators _ exPyFS "a.py" "invalid syntax" exFile5
      (Selection.mk 2 3
        (calculate_id (extractRaw exFile5 2 (min 3 exFile5.lines.length)) (some 2)
          (some (min 3 exFile5.lines.length))))
      ["z"] rfl rfl rfl rfl rfl rfl).2.2.2,
   C4_syntax_gate.2 exPyFailValidators "f" "anything" (by decide) (by decide) (by decide)⟩

/-- The full select/overwrite/decide(accept) pipeline equation: under a
valid in-range selection, a matching fingerprint (nothing changed in
between) and a passing validation, the three calls succeed and the final
file content is the lines before `s`, then the replacement, then the lines
after `e`. -/
lemma pipeline_eq (st : ServerState) (fs : FS) (p : String) (c : FileContent)
    (s e : Nat) (R : List String) (v : Validators)
    (hp : st.current_file_path = some p) (hc : fs p = .content c)
    (h1 : 1 ≤ s) (h2 : s ≤ e) (h3 : e ≤ c.lines.length)
    (hmax : e + 1 - s ≤ st.max_edit_lines)
    (hv : checkBody v p (FileContent.render (FileContent.mk
        (c.lines.take (s - 1) ++ R ++ c.lines.drop e) c.trailingNewline)) = none) :
    (select st fs s e).1 =
      .success (calculate_id (extractRaw c s e) (some s) (some e)) e ∧
    (overwrite v (select st fs s e).2.1 fs R).1 =
      .preview "Changes ready to apply" (generate_diff_preview c.lines R s e) ∧
    (decide (overwrite v (select st fs s e).2.1 fs R).2.1 fs .accept .ok).1 =
      .success "Changes applied successfully" ∧
    (decide (overwrite v (select st fs s e).2.1 fs R).2.1 fs .accept .ok).2.2 p =
      .content (FileContent.mk (c.lines.take (s - 1) ++ R ++ c.lines.drop e)
        c.trailingNewline) := by
  have hmin : min e c.lines.length = e := Nat.min_eq_left h3
  have hsel := select_success_eq st fs p c s e hp hc h1 h2 (by rw [hmin]; exact hmax)
  rw [hmin] at hsel
  have hid : calculate_id (extractRaw c s (min e c.lines.length)) (some s)
      (some (min e c.lines.length)) =
      calculate_id (extractRaw c s e) (some s) (some e) := by rw [hmin]
  rw [hsel]
  dsimp only
  rw [overwrite_success_eq v
    (ServerState.mk st.current_file_path
      (some (Selection.mk s e (calculate_id (extractRaw c s e) (some s) (some e))))
      st.pending_edit st.max_edit_lines)
    fs p c (Selection.mk s e (calculate_id (extractRaw c s e) (some s) (some e))) R
    hp rfl hc hid hv]
  dsimp only
  rw [decide_accept_ok_eq
    (ServerState.mk st.current_file_path
      (some (Selection.mk s e (calculate_id (extractRaw c s e) (some s) (some e))))
      (some (PendingEdit.mk s e R
        (FileContent.mk (c.lines.take (s - 1) ++ R ++ c.lines.drop e) c.trailingNewline)
        (generate_diff_preview c.lines R s e)))
      st.max_edit_lines)
    fs
    (PendingEdit.mk s e R
      (FileContent.mk (c.lines.take (s - 1) ++ R ++ c.lines.drop e) c.trailingNewline)
      (generate_diff_preview c.lines R s e))
    p rfl hp]
  exact ⟨rfl, rfl, rfl, by simp⟩

/-- C1: for every n-line file, after a successful select(s, e) (with the
end already within the file, so clamping is the identity), a successful
overwrite with replacement lines R returning status "preview", and
decide(accept) returning success, the file's content in the store equals
lines 1..s-1 of the original, followed by R, followed by lines e+1..n of
the original; in particular an empty R deletes exactly the selected
range. -/
theorem C1_pipeline_replaces_range (st : ServerState) (fs : FS) (p : String)
    (c : FileContent) (s e : Nat) (R : List String) (v : Validators)
    (hp : st.current_file_path = some p) (hc : fs p = .content c)
    (h1 : 1 ≤ s) (h2 : s ≤ e) (h3 : e ≤ c.lines.length)
    (hmax : e + 1 - s ≤ st.max_edit_lines)
    (hv : checkBody v p (FileContent.render (FileContent.mk
        (c.lines.take (s - 1) ++ R ++ c.lines.drop e) c.trailingNewline)) = none) :
    (select st fs s e).1 =
      .success (calculate_id (extractRaw c s e) (some s) (some e)) e ∧
    (overwrite v (select st fs s e).2.1 fs R).1 =
      .preview "Changes ready to apply" (generate_diff_preview c.lines R s e) ∧
    (decide (overwrite v (select st fs s e).2.1 fs R).2.1 fs .accept .ok).1 =
      .success "Changes applied successfully" ∧
    (decide (overwrite v (select st fs s e).2.1 fs R).2.1 fs .accept .ok).2.2 p =
      .content (FileContent.mk (c.lines.take (s - 1) ++ R ++ c.lines.drop e)
        c.trailingNewline) :=
  pipeline_eq st fs p c s e R v hp hc h1 h2 h3 hmax hv

/-- C1 witness: the claim's own example - selecting lines 2-3 of the 5-line
file, overwriting with the empty list and accepting - yields exactly lines
1, 4 and 5. -/
theorem C1_pipeline_replaces_range_witness :
    (overwrite exOkValidators (select exState exFS 2 3).2.1 exFS []).1 =
      .preview "Changes ready to apply" (generate_diff_preview exFile5.lines [] 2 3) ∧
    (decide (overwrite exOkValidators (select exState exFS 2 3).2.1 exFS []).2.1 exFS
        .accept .ok).2.2 "f" =
      .content (FileContent.mk ["Line 1", "Line 4", "Line 5"] true) := by
  have h := C1_pipeline_replaces_range exState exFS "f" exFile5 2 3 [] exOkValidators
    rfl rfl (by decide) (by decide) (by decide) (by decide) rfl
  exact ⟨h.2.1, by rw [h.2.2.2]; rfl⟩

/-- C8: for a file whose last line has no trailing line terminator, a
completed select/overwrite/decide(accept) edit replacing only an interior
range (the last line is not part of the range) produces a file whose last
line still has no trailing terminator: the stored content keeps
`trailingNewline = false`. -/
theorem C8_trailing_newline_preserved (st : ServerState) (fs : FS) (p : String)
    (c : FileContent) (s e : Nat) (R : List String) (v : Validators)
    (hp : st.current_file_path = some p) (hc : fs p = .content c)
    (h1 : 1 ≤ s) (h2 : s ≤ e) (h4 : e < c.lines.length)
    (hmax : e + 1 - s ≤ st.max_edit_lines)
    (hv : checkBody v p (FileContent.render (FileContent.mk
        (c.lines.take (s - 1) ++ R ++ c.lines.drop e) c.trailingNewline)) = none)
    (htr : c.trailingNewline = false) :
    (decide (overwrite v (select st fs s e).2.1 fs R).2.1 fs .accept .ok).1 =
      .success "Changes applied successfully" ∧
    (decide (overwrite v (select st fs s e).2.1 fs R).2.1 fs .accept .ok).2.2 p =
      .content (FileContent.mk (c.lines.take (s - 1) ++ R ++ c.lines.drop e) false) := by
  have h := pipeline_eq st fs p c s e R v hp hc h1 h2 (Nat.le_of_lt h4) hmax hv
  exact ⟨h.2.2.1, by rw [h.2.2.2, htr]⟩

/-- C8 witness: the test suite's newline scenario - a 3-line file with no
trailing terminator, replacing only line 2 - keeps the missing trailing
terminator after the accepted edit. -/
theorem C8_trailing_newline_preserved_witness :
    (decide (overwrite exOkValidators (select exState3 exFS3 2 2).2.1 exFS3
        ["New Line 2"]).2.1 exFS3 .accept .ok).2.2 "g" =
      .content (FileContent.mk ["Line 1", "New Line 2", "Line 3"] false) := by
  have h := C8_trailing_newline_preserved exState3 exFS3 "g" exFile3NoNl 2 2
    ["New Line 2"] exOkValidators rfl rfl (by decide) (by decide) (by decide)
    (by decide) rfl rfl
  rw [h.2]
  rfl

/-- C9: `generate_diff_preview original proposed s e` consists, in order,
of one context entry carrying the original line number for each line
before `s`; one removed entry tagged with the original line number for
each original line in `[s, e]`; one added entry tagged with its 1-based
sequence index within the replacement for each proposed line; and one
context entry per line after `e`, numbered by the unchanged original
numbering. -/
theorem C9_diff_preview_structure (original proposed : List String) (s e : Nat)
    (h1 : 1 ≤ s) (h2 : s ≤ e) (h3 : e ≤ original.length) :
    (generate_diff_preview original proposed s e).length =
      (s - 1) + (e + 1 - s) + proposed.length + (original.length - e) ∧
    (∀ i, i < s - 1 →
      (generate_diff_preview original proposed s e).getD i (DiffTag.ctx 0, "") =
        (DiffTag.ctx (i + 1), original.getD i "")) ∧
    (∀ i, i < e + 1 - s →
      (generate_diff_preview original proposed s e).getD (s - 1 + i) (DiffTag.ctx 0, "") =
        (DiffTag.removed (s + i), original.getD (s - 1 + i) "")) ∧
    (∀ j, j < proposed.length →
      (generate_diff_preview original proposed s e).getD (e + j) (DiffTag.ctx 0, "") =
        (DiffTag.added (j + 1), proposed.getD j "")) ∧
    (∀ k, k < original.length - e →
      (generate_diff_preview original proposed s e).getD (e + proposed.length + k)
          (DiffTag.ctx 0, "") =
        (DiffTag.ctx (e + 1 + k), original.getD (e + k) "")) := by
  have hmin : min e original.length = e := Nat.min_eq_left h3
  refine ⟨?_, ?_, ?_, ?_, ?_⟩
  · simp only [generate_diff_preview, hmin, List.length_append, List.length_map,
      List.length_range']
  · intro i hi
    simp only [generate_diff_preview, hmin]
    rw [List.getD_eq_getElem?_getD,
      List.getElem?_append_left
        (by simp only [List.length_append, List.length_map, List.length_range']; omega),
      List.getElem?_append_left
        (by simp only [List.length_append, List.length_map, List.length_range']; omega),
      List.getElem?_append_left
        (by simp only [List.length_map, List.length_range']; omega),
      List.getElem?_map, List.getElem?_range' 1 1 hi]
    have e1 : 1 + 1 * i = i + 1 := by omega
    rw [e1]
    simp
  · intro i hi
    simp only [generate_diff_preview, hmin]
    rw [List.getD_eq_getElem?_getD,
      List.getElem?_append_left
        (by simp only [List.length_append, List.length_map, List.length_range']; omega),
      List.getElem?_append_left
        (by simp only [List.length_append, List.length_map, List.length_range']; omega),
      List.getElem?_append_right
        (by simp only [List.length_map, List.length_range']; omega)]
    simp only [List.length_map, List.length_range']
    rw [show s - 1 + i - (s - 1) = i from by omega,
      List.getElem?_map, List.getElem?_range' s 1 hi]
    have e1 : s + 1 * i = s + i := by omega
    rw [e1]
    have e2 : s + i - 1 = s - 1 + i := by omega
    simp [e2]
  · intro j hj
    simp only [generate_diff_preview, hmin]
    rw [List.getD_eq_getElem?_getD,
      List.getElem?_append_left
        (by simp only [List.length_append, List.length_map, List.length_range']; omega),
      List.getElem?_append_right
        (by simp only [List.length_append, List.length_map, List.length_range']; omega)]
    simp only [List.length_append, List.length_map, List.length_range']
    rw [show e + j - (s - 1 + (e + 1 - s)) = j from by omega,
      List.getElem?_map, List.getElem?_range' 1 1 hj]
    have e1 : 1 + 1 * j = j + 1 := by omega
    rw [e1]
    simp
  · intro k hk
    simp only [generate_diff_preview, hmin]
    rw [List.getD_eq_getElem?_getD,
      List.getElem?_append_right
        (by simp only [List.length_append, List.length_map, List.length_range']; omega)]
    simp only [List.length_append, List.length_map, List.length_range']
    rw [show e + proposed.length + k - (s - 1 + (e + 1 - s) + proposed.length) = k from
        by omega,
      List.getElem?_map, List.getElem?_range' (e + 1) 1 hk]
    have e1 : e + 1 + 1 * k = e + 1 + k := by omega
    rw [e1]
    have e2 : e + 1 + k - 1 = e + k := by omega
    simp [e2]

/-- C9 witness: the test suite's example - replacing lines 2-3 of the
5-line file by two proposed lines - yields, in order, the context entry
for line 1, removed entries -2 and -3, added entries +1 and +2, and
context entries for lines 4 and 5. -/
theorem C9_diff_preview_structure_witness :
    (generate_diff_preview ["Line 1", "Line 2", "Line 3", "Line 4", "Line 5"]
        ["Modified Line 2", "New Line"] 2 3).length = 7 ∧
    (generate_diff_preview ["Line 1", "Line 2", "Line 3", "Line 4", "Line 5"]
        ["Modified Line 2", "New Line"] 2 3).getD 0 (DiffTag.ctx 0, "") =
      (DiffTag.ctx 1, "Line 1") ∧
    (generate_diff_preview ["Line 1", "Line 2", "Line 3", "Line 4", "Line 5"]
        ["Modified Line 2", "New Line"] 2 3).getD 1 (DiffTag.ctx 0, "") =
      (DiffTag.removed 2, "Line 2") ∧
    (generate_diff_preview ["Line 1", "Line 2", "Line 3", "Line 4", "Line 5"]
        ["Modified Line 2", "New Line"] 2 3).getD 2 (DiffTag.ctx 0, "") =
      (DiffTag.removed 3, "Line 3") ∧
    (generate_diff_preview ["Line 1", "Line 2", "Line 3", "Line 4", "Line 5"]
        ["Modified Line 2", "New Line"] 2 3).getD 3 (DiffTag.ctx 0, "") =
      (DiffTag.added 1, "Modified Line 2") ∧
    (generate_diff_preview ["Line 1", "Line 2", "Line 3", "Line 4", "Line 5"]
        ["Modified Line 2", "New Line"] 2 3).getD 4 (DiffTag.ctx 0, "") =
      (DiffTag.added 2, "New Line") ∧
    (generate_diff_preview ["Line 1", "Line 2", "Line 3", "Line 4", "Line 5"]
        ["Modified Line 2", "New Line"] 2 3).getD 5 (DiffTag.ctx 0, "") =
      (DiffTag.ctx 4, "Line 4") ∧
    (generate_diff_preview ["Line 1", "Line 2", "Line 3", "Line 4", "Line 5"]
        ["Modified Line 2", "New Line"] 2 3).getD 6 (DiffTag.ctx 0, "") =
      (DiffTag.ctx 5, "Line 5") := by
  have h := C9_diff_preview_structure
    ["Line 1", "Line 2", "Line 3", "Line 4", "Line 5"] ["Modified Line 2", "New Line"]
    2 3 (by decide) (by decide) (by decide)
  exact ⟨h.1, h.2.1 0 (by decide), h.2.2.1 0 (by decide), h.2.2.1 1 (by decide),
    h.2.2.2.1 0 (by decide), h.2.2.2.1 1 (by decide), h.2.2.2.2 0 (by decide),
    h.2.2.2.2 1 (by decide)⟩

end TextEditor
